import Mathlib

/-!
Shallow embedding of the mld-box-model-c-isotopes utility library
(`src/utils/constants.py` and `src/utils/data_input.py`) and proofs about it.

Numeric values are modelled as real numbers; numpy arrays of daily values are
modelled as `List ℝ`, with numpy indexing `v[i]` rendered as `v.getD i 0`,
`np.tile` as repeated concatenation and slicing `[:n]` as `List.take n`.
The reading of the historical dataset file (`pd.read_hdf`) is modelled by
passing the two relevant daily columns as explicit list arguments.
-/

open Real

namespace BoxModel

/-- `BORON_COEFFICIENT = 0.0004157 / 35` from `constants.py`
(total borate following Uppstrom 1974). -/
noncomputable def BORON_COEFFICIENT : ℝ := 0.0004157 / 35

/-- `calculate_k0(temp_kelvin, salinity)` from `constants.py`: Henry's constant
for CO2 solubility (Weiss 1974), `exp(ln_k0)` with the Weiss polynomial in
`temp_kelvin / 100` and salinity. -/
noncomputable def calculate_k0 (temp_kelvin salinity : ℝ) : ℝ :=
  let temp_k100 := temp_kelvin / 100
  let ln_k0 :=
    -60.2409
    + 93.4517 / temp_k100
    + 23.3585 * Real.log temp_k100
    + salinity * (0.023517 - 0.023656 * temp_k100 + 0.0047036 * temp_k100 ^ 2)
  Real.exp ln_k0

/-- `schmidt(temp_celsius)` from `constants.py`: cubic Schmidt-number
polynomial for CO2. -/
noncomputable def schmidt (temp_celsius : ℝ) : ℝ :=
  2073.1 - 125.62 * temp_celsius + 3.6276 * temp_celsius ^ 2
    - 0.043219 * temp_celsius ^ 3

/-- `calculate_kappa(wind_speed, temp_celsius)` from `constants.py`:
`0.251 * wind_speed**2 * (sc / 660)**-0.5`. -/
noncomputable def calculate_kappa (wind_speed temp_celsius : ℝ) : ℝ :=
  let sc := schmidt temp_celsius
  0.251 * wind_speed ^ 2 * (sc / 660) ^ (-0.5 : ℝ)

/-- `piston_velocity(wind_speed, temp_celsius, salinity)` from `constants.py`:
`0.24 * calculate_kappa(wind_speed, temp_celsius) *
calculate_k0(temp_celsius + 273.15, salinity)`. -/
noncomputable def piston_velocity (wind_speed temp_celsius salinity : ℝ) : ℝ :=
  0.24 * calculate_kappa wind_speed temp_celsius
    * calculate_k0 (temp_celsius + 273.15) salinity

/-- `calc_k0(temp_kelvin, salinity)` from `constants.py`: second copy of the
Weiss-1974 Henry's-constant formula, textually the same polynomial as
`calculate_k0`. -/
noncomputable def calc_k0 (temp_kelvin salinity : ℝ) : ℝ :=
  let temp_k100 := temp_kelvin / 100
  let ln_k0 :=
    -60.2409
    + 93.4517 / temp_k100
    + 23.3585 * Real.log temp_k100
    + salinity * (0.023517 - 0.023656 * temp_k100 + 0.0047036 * temp_k100 ^ 2)
  Real.exp ln_k0

/-- `calc_boron(salinity)` from `constants.py`: `BORON_COEFFICIENT * salinity`. -/
noncomputable def calc_boron (salinity : ℝ) : ℝ :=
  BORON_COEFFICIENT * salinity

/-- `np.linspace(a, b, n)` with endpoint included (numpy default):
`n` samples `a + (b - a) * i / (n - 1)` for `i = 0, …, n-1`. -/
noncomputable def linspace (a b : ℝ) (n : ℕ) : List ℝ :=
  (List.range n).map fun i : ℕ => a + (b - a) * (i : ℝ) / ((n : ℝ) - 1)

/-- Body of the inner `loop_years` helper of `load_real_data` before the
`hstack`: `vec + np.linspace(0, vec[0] - vec[364], 365)`. -/
noncomputable def loop_correct (vec : List ℝ) : List ℝ :=
  List.zipWith (fun a b => a + b) vec
    (linspace 0 (vec.getD 0 0 - vec.getD 364 0) 365)

/-- `loop_years(vec)` from `load_real_data` in `data_input.py`:
adds the linear ramp closing the year loop, then `np.hstack((vec, vec))`. -/
noncomputable def loop_years (vec : List ℝ) : List ℝ :=
  loop_correct vec ++ loop_correct vec

/-- `np.tile(v, n)`: `n` copies of `v` concatenated. -/
def tile (v : List ℝ) : ℕ → List ℝ
  | 0 => []
  | n + 1 => v ++ tile v n

/-- `load_real_data(prefix, simulation_length_years)` from `data_input.py`.
The two dataframe columns `df[prefix + "temp"]` and `df[prefix + "salt"]`
read from the historical dataset file are modelled as the explicit list
arguments `temp_col` and `salt_col`; the function slices them to 365 days,
applies `loop_years`, and tiles/truncates to `simulation_length_years * 365`
days. -/
noncomputable def load_real_data (temp_col salt_col : List ℝ)
    (simulation_length_years : ℕ) : List ℝ × List ℝ :=
  let temp_data := loop_years (temp_col.take 365)
  let salt_data := loop_years (salt_col.take 365)
  let total_days := simulation_length_years * 365
  ((tile temp_data (total_days / 365 + 1)).take total_days,
   (tile salt_data (total_days / 365 + 1)).take total_days)

/-- One idealized seasonal year of temperature from `load_seasonal_forcings`:
`15 + 7.5 * sin(2π (d - 180) / 365)` for `d = 0, …, 364`. -/
noncomputable def temperature_one_year : List ℝ :=
  (List.range 365).map fun d : ℕ =>
    15 + 7.5 * Real.sin (2 * π * ((d : ℝ) - 180) / 365)

/-- One idealized seasonal year of salinity from `load_seasonal_forcings`:
`33.5 + 0.5 * sin(2π (d + 31) / 365)` for `d = 0, …, 364`. -/
noncomputable def salinity_one_year : List ℝ :=
  (List.range 365).map fun d : ℕ =>
    33.5 + 0.5 * Real.sin (2 * π * ((d : ℝ) + 31) / 365)

/-- `load_seasonal_forcings(simulation_length_years)` from `data_input.py`:
tiles each idealized one-year profile `simulation_length_years` times. -/
noncomputable def load_seasonal_forcings (simulation_length_years : ℕ) :
    List ℝ × List ℝ :=
  (tile temperature_one_year simulation_length_years,
   tile salinity_one_year simulation_length_years)

/-- The error message raised by `calc_talk` for an unrecognized region code. -/
def regionErrorMsg : String := "Invalid region code. Use 'se', 'me', or 'ne'."

/-- `calc_talk(salt, pref)` from `data_input.py`: regional total-alkalinity
regression; `raise ValueError(...)` is modelled as `Except.error`. -/
def calc_talk (salt : ℝ) (pref : String) : Except String ℝ :=
  if pref = "se" then Except.ok (48.7 * salt + 608.8)
  else if pref = "me" then Except.ok (46.6 * salt + 670.6)
  else if pref = "ne" then Except.ok (39.1 * salt + 932.7)
  else Except.error regionErrorMsg

/-- Keyword arguments handed to the external carbonate-system solver
`pyco2.sys` by `compute_initial_conditions`. -/
structure CO2SysArgs where
  par1 : ℝ
  par2 : ℝ
  par1_type : ℕ
  par2_type : ℕ
  temperature : ℝ
  salinity : ℝ

/-- PyCO2SYS parameter-type code used by the source for total alkalinity
(`"par1_type": 1,  # Alkalinity`). -/
def ALKALINITY_TYPE_CODE : ℕ := 1

/-- PyCO2SYS parameter-type code used by the source for pCO2
(`"par2_type": 4,  # pCO2`). -/
def PCO2_TYPE_CODE : ℕ := 4

/-- `compute_initial_conditions(pCO2, alk, temp, sal)` from `data_input.py`.
The external solver `pyco2.sys` is modelled as an argument `solver`; the
function builds the kwargs record and returns the solver's output unchanged. -/
def compute_initial_conditions {Out : Type} (solver : CO2SysArgs → Out)
    (pCO2 alk temp sal : ℝ) : Out :=
  solver { par1 := alk, par2 := pCO2, par1_type := 1, par2_type := 4,
           temperature := temp, salinity := sal }

/-! ## Helper lemmas about the list operations -/

lemma length_tile (v : List ℝ) (n : ℕ) : (tile v n).length = n * v.length := by
  induction n with
  | zero => simp [tile]
  | succ n ih => simp [tile, ih, Nat.succ_mul]; omega

lemma getD_tile (v : List ℝ) (n i : ℕ) (d : ℝ) (h : i < n * v.length) :
    (tile v n).getD i d = v.getD (i % v.length) d := by
  induction n generalizing i with
  | zero => simp at h
  | succ n ih =>
    by_cases hi : i < v.length
    · rw [tile, List.getD_append _ _ _ _ hi, Nat.mod_eq_of_lt hi]
    · push_neg at hi
      rw [tile, List.getD_append_right _ _ _ _ hi]
      have hb : i - v.length < n * v.length := by
        rw [Nat.succ_mul] at h
        exact (Nat.sub_lt_iff_lt_add hi).2 (by rw [Nat.add_comm]; exact h)
      rw [ih _ hb, ← Nat.mod_eq_sub_mod hi]

lemma tile_two (v : List ℝ) : tile v 2 = v ++ v := by
  simp [tile]

lemma getD_take (l : List ℝ) (n i : ℕ) (d : ℝ) (h : i < n) :
    (l.take n).getD i d = l.getD i d := by
  simp [List.getD_eq_getElem?_getD, List.getElem?_take_of_lt h]

lemma getD_map_range (f : ℕ → ℝ) (n i : ℕ) (d : ℝ) (h : i < n) :
    ((List.range n).map f).getD i d = f i := by
  rw [List.getD_eq_getElem _ _ (by simpa using h)]
  simp

lemma getD_zipWith_add (as bs : List ℝ) (i : ℕ)
    (h1 : i < as.length) (h2 : i < bs.length) :
    (List.zipWith (fun a b => a + b) as bs).getD i 0 =
      as.getD i 0 + bs.getD i 0 := by
  rw [List.getD_eq_getElem _ _ (by simp [List.length_zipWith]; omega),
    List.getElem_zipWith, List.getD_eq_getElem _ _ h1, List.getD_eq_getElem _ _ h2]

lemma length_linspace (a b : ℝ) (n : ℕ) : (linspace a b n).length = n := by
  unfold linspace
  rw [List.length_map, List.length_range]

lemma getD_linspace (a b : ℝ) (n i : ℕ) (h : i < n) :
    (linspace a b n).getD i 0 = a + (b - a) * (i : ℝ) / ((n : ℝ) - 1) := by
  unfold linspace
  exact getD_map_range _ n i _ h

lemma length_loop_correct (vec : List ℝ) (h : vec.length = 365) :
    (loop_correct vec).length = 365 := by
  simp [loop_correct, List.length_zipWith, length_linspace, h]

lemma getD_loop_correct (vec : List ℝ) (h : vec.length = 365) (i : ℕ)
    (hi : i < 365) :
    (loop_correct vec).getD i 0 =
      vec.getD i 0 + (vec.getD 0 0 - vec.getD 364 0) * (i : ℝ) / 364 := by
  unfold loop_correct
  rw [getD_zipWith_add _ _ _ (by omega) (by rw [length_linspace]; omega),
    getD_linspace _ _ _ _ hi]
  norm_num

lemma loop_correct_zero (vec : List ℝ) (h : vec.length = 365) :
    (loop_correct vec).getD 0 0 = vec.getD 0 0 := by
  rw [getD_loop_correct vec h 0 (by norm_num)]
  norm_num

lemma loop_correct_last (vec : List ℝ) (h : vec.length = 365) :
    (loop_correct vec).getD 364 0 = vec.getD 0 0 := by
  rw [getD_loop_correct vec h 364 (by norm_num)]
  have h364 : ((364 : ℕ) : ℝ) = 364 := by norm_num
  rw [h364, mul_div_assoc, div_self (by norm_num : (364 : ℝ) ≠ 0), mul_one]
  ring

lemma length_loop_years (vec : List ℝ) (h : vec.length = 365) :
    (loop_years vec).length = 730 := by
  simp [loop_years, length_loop_correct vec h]

lemma getD_loop_years_left (vec : List ℝ) (h : vec.length = 365) (i : ℕ)
    (hi : i < 365) :
    (loop_years vec).getD i 0 = (loop_correct vec).getD i 0 :=
  List.getD_append _ _ _ _ (by rw [length_loop_correct vec h]; omega)

lemma getD_loop_years_right (vec : List ℝ) (h : vec.length = 365) (i : ℕ) :
    (loop_years vec).getD (365 + i) 0 = (loop_correct vec).getD i 0 := by
  unfold loop_years
  rw [List.getD_append_right _ _ _ _ (by rw [length_loop_correct vec h]; omega),
    length_loop_correct vec h]
  have hidx : 365 + i - 365 = i := by omega
  rw [hidx]

lemma length_temperature_one_year : temperature_one_year.length = 365 := by
  unfold temperature_one_year
  rw [List.length_map, List.length_range]

lemma length_salinity_one_year : salinity_one_year.length = 365 := by
  unfold salinity_one_year
  rw [List.length_map, List.length_range]

/-! Trigonometric helpers for locating the extrema of the sampled sinusoids:
the sampled angle closest to the sine's peak (resp. trough) wins, by strict
monotonicity of `cos` on `[0, π]`. -/

lemma cos_lt_cos_pi_div_730 (x : ℝ) (h1 : |x| ≤ π) (h2 : π / 730 < |x|) :
    Real.cos x < Real.cos (π / 730) := by
  rw [← Real.cos_abs x]
  exact Real.cos_lt_cos_of_nonneg_of_le_pi (by positivity) h1 h2

lemma pi_frac_le (c : ℝ) (h0 : 0 ≤ c) (h2 : c ≤ 730) : π * c / 730 ≤ π := by
  have hπ := Real.pi_pos
  rw [div_le_iff₀ (by norm_num)]
  nlinarith

lemma pi_frac_lt (c : ℝ) (h1 : 1 < c) : π / 730 < π * c / 730 := by
  have hπ := Real.pi_pos
  rw [div_lt_div_iff₀ (by norm_num) (by norm_num)]
  nlinarith

/-- Among the sampled temperature angles `2π(d - 180)/365`, `d = 0, …, 364`,
the sine is strictly maximal at `d = 271` (angle `2π·91/365`, the sample
closest to the peak `π/2`). -/
lemma sin_temp_lt (d : ℕ) (hd : d < 365) (hne : d ≠ 271) :
    Real.sin (2 * π * ((d : ℝ) - 180) / 365) <
      Real.sin (2 * π * 91 / 365) := by
  have hπ := Real.pi_pos
  have hrhs : Real.sin (2 * π * 91 / 365) = Real.cos (π / 730) := by
    rw [← Real.cos_pi_div_two_sub]
    congr 1
    ring
  have hlhs : Real.sin (2 * π * ((d : ℝ) - 180) / 365)
      = Real.cos (π * (1085 - 4 * (d : ℝ)) / 730) := by
    rw [← Real.cos_pi_div_two_sub]
    congr 1
    ring
  rw [hrhs, hlhs]
  rcases lt_or_ge d 89 with hc | hc
  · have hdR : (d : ℝ) ≤ 88 := by exact_mod_cast Nat.le_of_lt_succ hc
    have hd0 : (0 : ℝ) ≤ (d : ℝ) := Nat.cast_nonneg d
    rw [← Real.cos_sub_two_pi]
    have heq : π * (1085 - 4 * (d : ℝ)) / 730 - 2 * π
        = -(π * (375 + 4 * (d : ℝ)) / 730) := by ring
    rw [heq]
    apply cos_lt_cos_pi_div_730
    · rw [abs_neg, abs_of_nonneg
        (div_nonneg (mul_nonneg hπ.le (by linarith)) (by norm_num))]
      exact pi_frac_le _ (by linarith) (by linarith)
    · rw [abs_neg, abs_of_nonneg
        (div_nonneg (mul_nonneg hπ.le (by linarith)) (by norm_num))]
      exact pi_frac_lt _ (by linarith)
  · have hdR : (89 : ℝ) ≤ (d : ℝ) := by exact_mod_cast hc
    have hdR2 : (d : ℝ) ≤ 364 := by exact_mod_cast Nat.le_of_lt_succ hd
    apply cos_lt_cos_pi_div_730
    · rcases lt_or_ge d 272 with hlt | hge
      · have hle : (d : ℝ) ≤ 271 := by exact_mod_cast Nat.le_of_lt_succ hlt
        rw [abs_of_nonneg
          (div_nonneg (mul_nonneg hπ.le (by linarith)) (by norm_num))]
        exact pi_frac_le _ (by linarith) (by linarith)
      · have hge2 : (272 : ℝ) ≤ (d : ℝ) := by exact_mod_cast hge
        rw [show π * (1085 - 4 * (d : ℝ)) / 730
            = -(π * (4 * (d : ℝ) - 1085) / 730) from by ring, abs_neg,
          abs_of_nonneg
            (div_nonneg (mul_nonneg hπ.le (by linarith)) (by norm_num))]
        exact pi_frac_le _ (by linarith) (by linarith)
    · rcases lt_or_ge d 271 with hlt | hge
      · have hle : (d : ℝ) ≤ 270 := by exact_mod_cast Nat.le_of_lt_succ hlt
        rw [abs_of_nonneg
          (div_nonneg (mul_nonneg hπ.le (by linarith)) (by norm_num))]
        exact pi_frac_lt _ (by linarith)
      · have hge2 : (272 : ℝ) ≤ (d : ℝ) := by
          exact_mod_cast (by omega : 272 ≤ d)
        rw [show π * (1085 - 4 * (d : ℝ)) / 730
            = -(π * (4 * (d : ℝ) - 1085) / 730) from by ring, abs_neg,
          abs_of_nonneg
            (div_nonneg (mul_nonneg hπ.le (by linarith)) (by norm_num))]
        exact pi_frac_lt _ (by linarith)

/-- Among the sampled salinity angles `2π(d + 31)/365`, `d = 0, …, 364`,
the sine is strictly minimal at `d = 243` (the sample closest to the trough
`3π/2`). -/
lemma sin_sal_gt (d : ℕ) (hd : d < 365) (hne : d ≠ 243) :
    Real.sin (2 * π * ((243 : ℝ) + 31) / 365) <
      Real.sin (2 * π * ((d : ℝ) + 31) / 365) := by
  have hπ := Real.pi_pos
  have hsin : ∀ x : ℝ, Real.sin x = -Real.cos (x + π / 2) := fun x => by
    have h := Real.cos_add_pi_div_two x
    linarith
  rw [hsin, hsin, neg_lt_neg_iff]
  have hr : 2 * π * ((243 : ℝ) + 31) / 365 + π / 2 = π / 730 + 2 * π := by
    ring
  rw [hr, Real.cos_add_two_pi]
  have hl : 2 * π * ((d : ℝ) + 31) / 365 + π / 2
      = π * (4 * (d : ℝ) + 489) / 730 := by ring
  rw [hl]
  have hd0 : (0 : ℝ) ≤ (d : ℝ) := Nat.cast_nonneg d
  rcases lt_or_ge d 61 with hc | hc
  · have hdR : (d : ℝ) ≤ 60 := by exact_mod_cast Nat.le_of_lt_succ hc
    apply cos_lt_cos_pi_div_730
    · rw [abs_of_nonneg
        (div_nonneg (mul_nonneg hπ.le (by linarith)) (by norm_num))]
      exact pi_frac_le _ (by linarith) (by linarith)
    · rw [abs_of_nonneg
        (div_nonneg (mul_nonneg hπ.le (by linarith)) (by norm_num))]
      exact pi_frac_lt _ (by linarith)
  · have hdR : (61 : ℝ) ≤ (d : ℝ) := by exact_mod_cast hc
    have hdR2 : (d : ℝ) ≤ 364 := by exact_mod_cast Nat.le_of_lt_succ hd
    rw [← Real.cos_sub_two_pi]
    have heq : π * (4 * (d : ℝ) + 489) / 730 - 2 * π
        = π * (4 * (d : ℝ) - 971) / 730 := by ring
    rw [heq]
    rcases lt_or_ge d 243 with hlt | hge
    · have hle : (d : ℝ) ≤ 242 := by exact_mod_cast Nat.le_of_lt_succ hlt
      apply cos_lt_cos_pi_div_730
      · rw [show π * (4 * (d : ℝ) - 971) / 730
            = -(π * (971 - 4 * (d : ℝ)) / 730) from by ring, abs_neg,
          abs_of_nonneg
            (div_nonneg (mul_nonneg hπ.le (by linarith)) (by norm_num))]
        exact pi_frac_le _ (by linarith) (by linarith)
      · rw [show π * (4 * (d : ℝ) - 971) / 730
            = -(π * (971 - 4 * (d : ℝ)) / 730) from by ring, abs_neg,
          abs_of_nonneg
            (div_nonneg (mul_nonneg hπ.le (by linarith)) (by norm_num))]
        exact pi_frac_lt _ (by linarith)
    · have hge2 : (244 : ℝ) ≤ (d : ℝ) := by
        exact_mod_cast (by omega : 244 ≤ d)
      apply cos_lt_cos_pi_div_730
      · rw [abs_of_nonneg
          (div_nonneg (mul_nonneg hπ.le (by linarith)) (by norm_num))]
        exact pi_frac_le _ (by linarith) (by linarith)
      · rw [abs_of_nonneg
          (div_nonneg (mul_nonneg hπ.le (by linarith)) (by norm_num))]
        exact pi_frac_lt _ (by linarith)

lemma seasonal_temp_getD (d : ℕ) (hd : d < 365) :
    (load_seasonal_forcings 2).1.getD d 0 =
      15 + 7.5 * Real.sin (2 * π * ((d : ℝ) - 180) / 365) := by
  simp only [load_seasonal_forcings]
  rw [tile_two, List.getD_append _ _ _ _
    (by rw [length_temperature_one_year]; omega)]
  unfold temperature_one_year
  exact getD_map_range _ _ _ _ hd

lemma seasonal_salt_getD (d : ℕ) (hd : d < 365) :
    (load_seasonal_forcings 2).2.getD d 0 =
      33.5 + 0.5 * Real.sin (2 * π * ((d : ℝ) + 31) / 365) := by
  simp only [load_seasonal_forcings]
  rw [tile_two, List.getD_append _ _ _ _
    (by rw [length_salinity_one_year]; omega)]
  unfold salinity_one_year
  exact getD_map_range _ _ _ _ hd

lemma seasonal_temp_getD_shift (d : ℕ) (hd : d < 365) :
    (load_seasonal_forcings 2).1.getD (365 + d) 0 =
      (load_seasonal_forcings 2).1.getD d 0 := by
  simp only [load_seasonal_forcings]
  rw [tile_two, List.getD_append_right _ _ _ _
      (by rw [length_temperature_one_year]; omega),
    length_temperature_one_year,
    List.getD_append _ _ _ _ (by rw [length_temperature_one_year]; omega)]
  have hidx : 365 + d - 365 = d := by omega
  rw [hidx]

lemma seasonal_salt_getD_shift (d : ℕ) (hd : d < 365) :
    (load_seasonal_forcings 2).2.getD (365 + d) 0 =
      (load_seasonal_forcings 2).2.getD d 0 := by
  simp only [load_seasonal_forcings]
  rw [tile_two, List.getD_append_right _ _ _ _
      (by rw [length_salinity_one_year]; omega),
    length_salinity_one_year,
    List.getD_append _ _ _ _ (by rw [length_salinity_one_year]; omega)]
  have hidx : 365 + d - 365 = d := by omega
  rw [hidx]

/-- Concrete 365-day series `0, 1, …, 364` used as a counterexample input. -/
noncomputable def rampVec : List ℝ := (List.range 365).map fun i : ℕ => (i : ℝ)

/-! ## Theorems -/

/-- C1: for every positive `simulation_length_years`, both forcing generators
return temperature and salinity series of length exactly
`simulation_length_years * 365` (the historical loader given at least 365
days of each dataset column). -/
theorem forcing_series_lengths (y : ℕ) (hy : 0 < y)
    (temp_col salt_col : List ℝ)
    (ht : 365 ≤ temp_col.length) (hs : 365 ≤ salt_col.length) :
    (load_real_data temp_col salt_col y).1.length = y * 365 ∧
    (load_real_data temp_col salt_col y).2.length = y * 365 ∧
    (load_seasonal_forcings y).1.length = y * 365 ∧
    (load_seasonal_forcings y).2.length = y * 365 := by
  have htt : (temp_col.take 365).length = 365 := by rw [List.length_take]; omega
  have hst : (salt_col.take 365).length = 365 := by rw [List.length_take]; omega
  have h1 : (loop_years (temp_col.take 365)).length = 730 :=
    length_loop_years _ htt
  have h2 : (loop_years (salt_col.take 365)).length = 730 :=
    length_loop_years _ hst
  have hdiv : y * 365 / 365 = y := by omega
  refine ⟨?_, ?_, ?_, ?_⟩
  · simp only [load_real_data]
    rw [List.length_take, length_tile, h1, hdiv]
    omega
  · simp only [load_real_data]
    rw [List.length_take, length_tile, h2, hdiv]
    omega
  · simp only [load_seasonal_forcings]
    rw [length_tile, length_temperature_one_year]
  · simp only [load_seasonal_forcings]
    rw [length_tile, length_salinity_one_year]

/-- Witness for C1 at `simulation_length_years = 1` with a concrete
365-day dataset. -/
theorem forcing_series_lengths_witness :
    0 < 1 ∧
    (load_real_data (List.replicate 365 (0 : ℝ))
      (List.replicate 365 (0 : ℝ)) 1).1.length = 1 * 365 :=
  ⟨by decide,
    (forcing_series_lengths 1 (by decide) _ _
      (by rw [List.length_replicate]) (by rw [List.length_replicate])).1⟩

/-- C5 counterexample: for the 365-day series `0, 1, …, 364`, the corrected
series has `corrected[0] = 0` and `corrected[364] + slope[364] = -364`, so
`corrected[0] ≠ corrected[364] + slope[364]` — the claimed identity fails. -/
theorem loop_correction_claim_false :
    ¬ ((loop_correct rampVec).getD 0 0 =
        (loop_correct rampVec).getD 364 0 +
          (linspace 0 (rampVec.getD 0 0 - rampVec.getD 364 0) 365).getD
            364 0) := by
  have h : rampVec.length = 365 := by
    unfold rampVec
    rw [List.length_map, List.length_range]
  have h0 : rampVec.getD 0 0 = 0 := by
    unfold rampVec
    rw [getD_map_range _ _ _ _ (by norm_num)]
    norm_num
  have h364 : rampVec.getD 364 0 = 364 := by
    unfold rampVec
    rw [getD_map_range _ _ _ _ (by norm_num)]
    norm_num
  rw [loop_correct_zero _ h, loop_correct_last _ h,
    getD_linspace _ _ _ _ (by norm_num), h0, h364]
  norm_num

/-- C5 amended: after the loop-year correction, `corrected[364]` equals
`corrected[0]` exactly (the ramp's last value `vec[0] - vec[364]` lifts day
364 to `vec[0]`), so the boundary between two concatenated corrected years
carries a discontinuity step of exactly zero. -/
theorem loop_correction_seamless (vec : List ℝ) (h : vec.length = 365) :
    (loop_correct vec).getD 364 0 = (loop_correct vec).getD 0 0 ∧
    (loop_years vec).getD 365 0 = (loop_years vec).getD 364 0 := by
  constructor
  · rw [loop_correct_last vec h, loop_correct_zero vec h]
  · show (loop_years vec).getD (365 + 0) 0 = _
    rw [getD_loop_years_right vec h 0,
      getD_loop_years_left vec h 364 (by norm_num),
      loop_correct_zero vec h, loop_correct_last vec h]

/-- Witness for C5 on a concrete 365-day series. -/
theorem loop_correction_seamless_witness :
    (List.replicate 365 (0 : ℝ)).length = 365 ∧
    (loop_correct (List.replicate 365 (0 : ℝ))).getD 364 0 =
      (loop_correct (List.replicate 365 (0 : ℝ))).getD 0 0 :=
  ⟨by rw [List.length_replicate],
    (loop_correction_seamless _ (by rw [List.length_replicate])).1⟩

/-- C9: for a 365-day series, `loop_years` returns a 730-day series whose
second half repeats its first half and whose entries at indices 364 and 0
are both the original `vec[0]`; consequently the tiled output of
`load_real_data` has its day-364 value equal to its day-0 value in every
simulated year. -/
theorem loop_years_spec (vec : List ℝ) (h : vec.length = 365) :
    (loop_years vec).length = 730 ∧
    (∀ i, i < 365 →
      (loop_years vec).getD (365 + i) 0 = (loop_years vec).getD i 0) ∧
    (loop_years vec).getD 364 0 = (loop_years vec).getD 0 0 ∧
    (loop_years vec).getD 0 0 = vec.getD 0 0 ∧
    (∀ y k, 365 * k + 364 < y * 365 →
      (load_real_data vec vec y).1.getD (365 * k + 364) 0 =
        (load_real_data vec vec y).1.getD 0 0) := by
  have hly : (loop_years vec).length = 730 := length_loop_years vec h
  refine ⟨hly, fun i hi => ?_, ?_, ?_, fun y k hk => ?_⟩
  · rw [getD_loop_years_right vec h i, getD_loop_years_left vec h i hi]
  · rw [getD_loop_years_left vec h 364 (by norm_num),
      getD_loop_years_left vec h 0 (by norm_num),
      loop_correct_last vec h, loop_correct_zero vec h]
  · rw [getD_loop_years_left vec h 0 (by norm_num), loop_correct_zero vec h]
  · have htake : vec.take 365 = vec := List.take_of_length_le (by omega)
    simp only [load_real_data]
    rw [htake]
    have hdiv : y * 365 / 365 = y := by omega
    rw [hdiv]
    rw [getD_take _ _ _ _ hk, getD_take _ _ _ _ (by omega : 0 < y * 365)]
    rw [getD_tile _ _ _ _ (by rw [hly]; omega),
      getD_tile _ _ _ _ (by rw [hly]; omega), hly]
    have h0 : 0 % 730 = 0 := by norm_num
    rw [h0]
    rcases Nat.even_or_odd k with ⟨m, hm⟩ | ⟨m, hm⟩
    · have hmod : (365 * k + 364) % 730 = 364 := by subst hm; omega
      rw [hmod, getD_loop_years_left vec h 364 (by norm_num),
        getD_loop_years_left vec h 0 (by norm_num),
        loop_correct_last vec h, loop_correct_zero vec h]
    · have hmod : (365 * k + 364) % 730 = 729 := by subst hm; omega
      rw [hmod, show (729 : ℕ) = 365 + 364 from by norm_num,
        getD_loop_years_right vec h 364,
        getD_loop_years_left vec h 0 (by norm_num),
        loop_correct_last vec h, loop_correct_zero vec h]

/-- Witness for C9 on a concrete 365-day series. -/
theorem loop_years_spec_witness :
    (List.replicate 365 (0 : ℝ)).length = 365 ∧
    (loop_years (List.replicate 365 (0 : ℝ))).length = 730 :=
  ⟨by rw [List.length_replicate],
    (loop_years_spec _ (by rw [List.length_replicate])).1⟩

/-- C2: `calc_talk(salt, pref)` returns `48.7*salt + 608.8` for `"se"`,
`46.6*salt + 670.6` for `"me"`, `39.1*salt + 932.7` for `"ne"`, and for every
other region string it returns the invalid-argument error whose message
names the accepted codes `se`, `me`, `ne`.  It is the only operation in the
library with an error path: every other embedded operation has a plain
(non-`Except`) return type, mirroring the absence of any other `raise` in
the source. -/
theorem calc_talk_spec (salt : ℝ) (pref : String) :
    calc_talk salt "se" = Except.ok (48.7 * salt + 608.8) ∧
    calc_talk salt "me" = Except.ok (46.6 * salt + 670.6) ∧
    calc_talk salt "ne" = Except.ok (39.1 * salt + 932.7) ∧
    (pref ≠ "se" → pref ≠ "me" → pref ≠ "ne" →
      calc_talk salt pref = Except.error regionErrorMsg) ∧
    (∃ a b : String, regionErrorMsg = a ++ "se" ++ b) ∧
    (∃ a b : String, regionErrorMsg = a ++ "me" ++ b) ∧
    (∃ a b : String, regionErrorMsg = a ++ "ne" ++ b) := by
  refine ⟨rfl, rfl, rfl, fun h1 h2 h3 => ?_, ?_, ?_, ?_⟩
  · simp [calc_talk, h1, h2, h3]
  · exact ⟨"Invalid region code. Use '", "', 'me', or 'ne'.", by decide⟩
  · exact ⟨"Invalid region code. Use 'se', '", "', or 'ne'.", by decide⟩
  · exact ⟨"Invalid region code. Use 'se', 'me', or '", "'.", by decide⟩

/-- Witness for C2: at the concrete unrecognized region `"xx"` the error
branch is taken. -/
theorem calc_talk_spec_witness :
    ("xx" : String) ≠ "se" ∧ calc_talk 0 "xx" = Except.error regionErrorMsg :=
  ⟨by decide, (calc_talk_spec 0 "xx").2.2.2.1 (by decide) (by decide) (by decide)⟩

/-- C3: `piston_velocity(w, T_C, S) = 0.24 * kappa * k0` where
`kappa = 0.251 * w² * (schmidt(T_C)/660)^(-0.5)` and `k0` is the Weiss-1974
solubility constant (`calculate_k0`) at `T_C + 273.15` Kelvin and salinity
`S`. -/
theorem piston_velocity_spec (w t_c s : ℝ) :
    piston_velocity w t_c s =
      0.24 * (0.251 * w ^ 2 * (schmidt t_c / 660) ^ (-0.5 : ℝ))
        * calculate_k0 (t_c + 273.15) s := rfl

/-- C4: for all salinity `S ≥ 0`, `calc_boron S` equals `(0.0004157/35) * S`
exactly (the coefficient is the constant `BORON_COEFFICIENT = 0.0004157/35`). -/
theorem calc_boron_spec (s : ℝ) (h : 0 ≤ s) :
    calc_boron s = 0.0004157 / 35 * s := rfl

/-- Witness for C4 at the concrete salinity `1`. -/
theorem calc_boron_spec_witness :
    (0 : ℝ) ≤ 1 ∧ calc_boron 1 = 0.0004157 / 35 * 1 :=
  ⟨by norm_num, calc_boron_spec 1 (by norm_num)⟩

/-- C7 counterexample: `schmidt 20` is exactly `665.988`, which differs from
the claimed reference value `668.84` by `2.852`, far more than the
two-decimal-place tolerance `0.005`. -/
theorem schmidt_at_20_ne_668_84 : (0.005 : ℝ) < |schmidt 20 - 668.84| := by
  have h : schmidt 20 = 665.988 := by unfold schmidt; norm_num
  rw [h, abs_of_nonpos (by norm_num)]
  norm_num

/-- C7 amended: `schmidt 20`, evaluated with the implemented coefficients
`2073.1, -125.62, 3.6276, -0.043219`, equals exactly `665.988`, i.e.
`665.99` to two decimal places. -/
theorem schmidt_at_20_value :
    schmidt 20 = 665.988 ∧ |schmidt 20 - 665.99| ≤ 0.005 := by
  have h : schmidt 20 = 665.988 := by unfold schmidt; norm_num
  refine ⟨h, ?_⟩
  rw [h, abs_of_nonpos (by norm_num)]
  norm_num

/-- C8: `compute_initial_conditions` calls the external solver with
`par1 = alk` typed with the total-alkalinity code, `par2 = pCO2` typed with
the pCO2 code, passes temperature and salinity through unchanged, and
returns the solver's output unmodified. -/
theorem compute_initial_conditions_spec {Out : Type}
    (solver : CO2SysArgs → Out) (pCO2 alk temp sal : ℝ) :
    compute_initial_conditions solver pCO2 alk temp sal =
      solver { par1 := alk, par2 := pCO2,
               par1_type := ALKALINITY_TYPE_CODE,
               par2_type := PCO2_TYPE_CODE,
               temperature := temp, salinity := sal } ∧
    ALKALINITY_TYPE_CODE = 1 ∧ PCO2_TYPE_CODE = 4 :=
  ⟨rfl, rfl, rfl⟩

/-- C6 counterexample: in the idealized seasonal forcings for two years, the
temperature at day 271 strictly exceeds the temperature at each of days 179,
180 and 181 (so the maximum is not at index 180 ± 1 — day 180 is where the
sine crosses its mean), and the salinity at day 243 is strictly below the
salinity at day 334 (so the minimum is not near index 334). -/
theorem seasonal_extrema_claim_false :
    (load_seasonal_forcings 2).1.getD 179 0 <
      (load_seasonal_forcings 2).1.getD 271 0 ∧
    (load_seasonal_forcings 2).1.getD 180 0 <
      (load_seasonal_forcings 2).1.getD 271 0 ∧
    (load_seasonal_forcings 2).1.getD 181 0 <
      (load_seasonal_forcings 2).1.getD 271 0 ∧
    (load_seasonal_forcings 2).2.getD 243 0 <
      (load_seasonal_forcings 2).2.getD 334 0 := by
  have h271 : (load_seasonal_forcings 2).1.getD 271 0
      = 15 + 7.5 * Real.sin (2 * π * 91 / 365) := by
    rw [seasonal_temp_getD 271 (by norm_num)]
    norm_num
  refine ⟨?_, ?_, ?_, ?_⟩
  · rw [seasonal_temp_getD 179 (by norm_num), h271]
    have h := sin_temp_lt 179 (by norm_num) (by norm_num)
    push_cast at h ⊢
    linarith
  · rw [seasonal_temp_getD 180 (by norm_num), h271]
    have h := sin_temp_lt 180 (by norm_num) (by norm_num)
    push_cast at h ⊢
    linarith
  · rw [seasonal_temp_getD 181 (by norm_num), h271]
    have h := sin_temp_lt 181 (by norm_num) (by norm_num)
    push_cast at h ⊢
    linarith
  · rw [seasonal_salt_getD 243 (by norm_num), seasonal_salt_getD 334 (by norm_num)]
    have h := sin_sal_gt 334 (by norm_num) (by norm_num)
    push_cast at h ⊢
    linarith

/-- C6 amended: for `load_seasonal_forcings 2`, both series have length 730
and repeat with period 365; within each year the temperature is strictly
maximal at day index 271 (the sample closest to the sine peak at phase
180 + 365/4 = 271.25), not 180 ± 1, and the salinity is strictly minimal at
day index 243 (phase 242.75), not near 334. -/
theorem seasonal_extrema (d : ℕ) (hd : d < 365) :
    ((load_seasonal_forcings 2).1.length = 730 ∧
     (load_seasonal_forcings 2).2.length = 730) ∧
    ((load_seasonal_forcings 2).1.getD (365 + d) 0 =
        (load_seasonal_forcings 2).1.getD d 0 ∧
     (load_seasonal_forcings 2).2.getD (365 + d) 0 =
        (load_seasonal_forcings 2).2.getD d 0) ∧
    (d ≠ 271 →
      (load_seasonal_forcings 2).1.getD d 0 <
        (load_seasonal_forcings 2).1.getD 271 0) ∧
    (d ≠ 243 →
      (load_seasonal_forcings 2).2.getD 243 0 <
        (load_seasonal_forcings 2).2.getD d 0) := by
  refine ⟨⟨?_, ?_⟩,
    ⟨seasonal_temp_getD_shift d hd, seasonal_salt_getD_shift d hd⟩,
    fun hne => ?_, fun hne => ?_⟩
  · simp only [load_seasonal_forcings]
    rw [length_tile, length_temperature_one_year]
  · simp only [load_seasonal_forcings]
    rw [length_tile, length_salinity_one_year]
  · have h271 : (load_seasonal_forcings 2).1.getD 271 0
        = 15 + 7.5 * Real.sin (2 * π * 91 / 365) := by
      rw [seasonal_temp_getD 271 (by norm_num)]
      norm_num
    rw [seasonal_temp_getD d hd, h271]
    have h := sin_temp_lt d hd hne
    linarith
  · rw [seasonal_salt_getD 243 (by norm_num), seasonal_salt_getD d hd]
    have h := sin_sal_gt d hd hne
    push_cast at h ⊢
    linarith

/-- Witness for C6 at concrete day indices 180 and 271. -/
theorem seasonal_extrema_witness :
    (180 < 365 ∧ (180 : ℕ) ≠ 271) ∧
    (load_seasonal_forcings 2).1.getD 180 0 <
      (load_seasonal_forcings 2).1.getD 271 0 :=
  ⟨by decide, (seasonal_extrema 180 (by decide)).2.2.1 (by decide)⟩

/-- C10: the two Weiss-1974 solubility implementations `calculate_k0` and
`calc_k0` are extensionally equal. -/
theorem calculate_k0_eq_calc_k0 :
    ∀ temp_kelvin salinity : ℝ,
      calculate_k0 temp_kelvin salinity = calc_k0 temp_kelvin salinity :=
  fun _ _ => rfl

end BoxModel
